import Mathlib

/-!
Verification development for the warehouse-setup-service repository.

The repository is a FastAPI + Celery service that provisions infrastructure by
templating Terraform variable files and driving the Terraform CLI through an
init → plan → apply (→ destroy on apply failure) sequence, with job state kept
in a Redis-backed job store.

This file gives a shallow embedding of the relevant code:
 * `app/core/config.py` — `Settings.create_task_specific_tfvars`,
   `Settings.cleanup_task_tfvars`, `Settings.get_task_tfvars_path` and the
   module-type detection, over an explicit filesystem model;
 * `app/tasks/terraform.py` — the command sequence of `run_terraform_commands`
   (including lock-retry and destroy-on-apply-failure) over an environment that
   records the exit code / stdout / stderr of each external command, together
   with the list of commands issued;
 * `app/services/terraform_job_store.py` — `update_job`, `set_job_error` and
   `get_job_status` over an explicit hash-store model;
 * `app/api/v1/endpoints/terraform.py` — `update_tfvars_with_org_slug`.

Python strings are modelled as Lean `String` / `List Char`; Python dicts that
the code only iterates or key-looks-up are modelled as association lists.
-/

/-! ## Basic character / string helpers mirroring Python primitives -/

/-- Python `\s` whitespace class (ASCII part), as used by `re` and `str.strip`. -/
def isPyWs (c : Char) : Bool :=
  c = ' ' || c = '\t' || c = '\n' || c = '\r' || c = '\x0b' || c = '\x0c'

/-- Drop leading whitespace characters (the effect of a leading greedy `\s*`). -/
def dropWs : List Char → List Char
  | [] => []
  | c :: cs => if isPyWs c then dropWs cs else c :: cs

/-- Split a character list into its maximal leading whitespace run and the rest. -/
def spanWs : List Char → List Char × List Char
  | [] => ([], [])
  | c :: cs =>
    if isPyWs c then
      let r := spanWs cs
      (c :: r.1, r.2)
    else ([], c :: cs)

/-- Strip `pat` from the front of `l`; `some rest` iff `pat` is a leading segment. -/
def stripPre : List Char → List Char → Option (List Char)
  | [], rest => some rest
  | _ :: _, [] => none
  | k :: ks, c :: cs => if c = k then stripPre ks cs else none

/-- Whether `pat` occurs as a contiguous segment of `l` (Python `pat in l`). -/
def containsSeg (pat : List Char) : List Char → Bool
  | [] => (stripPre pat []).isSome
  | c :: cs => (stripPre pat (c :: cs)).isSome || containsSeg pat cs

/-- Python `sub in s` on strings. -/
def containsSub (s pat : String) : Bool :=
  containsSeg pat.data s.data

/-- Python `str.lower()` (ASCII). -/
def lowerStr (s : String) : String :=
  String.mk (s.data.map Char.toLower)

/-- Python `str.isdigit()` (ASCII digits; empty string is not a digit string). -/
def pyIsdigit (s : List Char) : Bool :=
  !s.isEmpty && s.all Char.isDigit

/-- Split a character list on a separator character, keeping empty segments
(Python `str.split(sep)` semantics). -/
def splitOnChar (sep : Char) : List Char → List (List Char)
  | [] => [[]]
  | c :: cs =>
    let r := splitOnChar sep cs
    if c = sep then [] :: r
    else
      match r with
      | [] => [[c]]
      | h :: t => (c :: h) :: t

/-- Join segments with a separator character (Python `sep.join`). -/
def joinChar (sep : Char) : List (List Char) → List Char
  | [] => []
  | [l] => l
  | l :: ls => l ++ sep :: joinChar sep ls

/-- Python `str.splitlines()` restricted to `\n` boundaries: like splitting on
`\n` but without a trailing empty segment for a trailing newline, and with no
segment at all for the empty string. -/
def pySplitlines (l : List Char) : List (List Char) :=
  match l with
  | [] => []
  | _ =>
    let parts := splitOnChar '\n' l
    if parts.getLast? = some [] then parts.dropLast else parts

/-- The segment of `l` after its last `'/'` (whole list when there is none). -/
def lastSeg (l : List Char) : List Char :=
  (l.reverse.takeWhile (fun c => c ≠ '/')).reverse

/-- `os.path.basename` (POSIX): the part of the path after the last slash. -/
def pyBasename (p : String) : String :=
  String.mk (lastSeg p.data)

/-- Suffix test on strings via reversed character lists (`str.endswith`). -/
def endsWithStr (s suf : String) : Bool :=
  (stripPre suf.data.reverse s.data.reverse).isSome

/-- `os.path.isabs` (POSIX): absolute iff the path starts with a slash. -/
def pyIsAbs (p : String) : Bool :=
  match p.data with
  | '/' :: _ => true
  | _ => false

/-- `os.path.dirname` (POSIX): everything up to the last slash, with any
trailing slashes of that head stripped unless the head is all slashes. -/
def pyDirname (p : String) : String :=
  if containsSeg ['/'] p.data then
    let head := (p.data.reverse.dropWhile (fun c => c ≠ '/')).reverse
    let stripped := (head.reverse.dropWhile (fun c => c = '/')).reverse
    if stripped = [] then String.mk head else String.mk stripped
  else ""

/-- `os.path.join a b` (POSIX, two components, `b` not empty). -/
def pyJoin (a b : String) : String :=
  if pyIsAbs b then b
  else if a = "" then b
  else if endsWithStr a "/" then a ++ b
  else a ++ "/" ++ b

/-- `os.path.abspath` relative to a current working directory `cwd` (inputs are
assumed already normalised: no `.` / `..` components). -/
def pyAbspath (cwd p : String) : String :=
  if pyIsAbs p then p else pyJoin cwd p

/-! ## Filesystem model

A filesystem is a finite map from absolute file paths to file contents.  Only
regular files are modelled; directory creation (`os.makedirs`) has no
observable effect on the file map and is omitted. -/

/-- Filesystem: association list from path to file content. -/
def FS := List (String × String)

/-- Read a file (`open(path).read()` / `os.path.exists` when `isSome`). -/
def fsRead (fs : FS) (p : String) : Option String :=
  match fs with
  | [] => none
  | (q, c) :: rest => if q = p then some c else fsRead rest p

/-- Write (create or overwrite) a file. -/
def fsWrite (fs : FS) (p c : String) : FS :=
  match fs with
  | [] => [(p, c)]
  | (q, c') :: rest => if q = p then (p, c) :: rest else (q, c') :: fsWrite rest p c

/-- Remove a file if present (`os.remove` guarded by `os.path.exists`). -/
def fsRemove (fs : FS) (p : String) : FS :=
  match fs with
  | [] => []
  | (q, c) :: rest => if q = p then fsRemove rest p else (q, c) :: fsRemove rest p

/-! ## Variable templater (`Settings.create_task_specific_tfvars`, config.py)

The replacement loop of `create_task_specific_tfvars` (config.py lines
221-241): per line, the first replacement key `k` with
`re.match(rf"^\s*{k}\s*=", line)` triggers
`re.sub(r"=\s*.*$", f"= {formatted}", line)` and a `break`. -/

/-- A Python value passed in a `replacements` dict: `str`, `bool` or a number
(`int`).  Keys in the model are restricted to plain identifier keys (see
`plainKey`), matching how the code interpolates keys into regexes verbatim. -/
inductive PyVal where
  | str (s : List Char)
  | bool (b : Bool)
  | int (n : Int)

/-- Value formatting in `create_task_specific_tfvars`, following the Python
branch order: a `str` that is not all digits is quoted, a `bool` becomes a
lowercase literal, everything else is `str(value)` (so all-digit strings and
ints are rendered bare). -/
def fmtVal : PyVal → List Char
  | .str s => if pyIsdigit s then s else '"' :: (s ++ ['"'])
  | .bool b => if b then "true".data else "false".data
  | .int n => (toString n).data

/-- Whether the first character is `'='`. -/
def headIsEq : List Char → Bool
  | '=' :: _ => true
  | _ => false

/-- `re.match(rf"^\s*{key}\s*=", line)` for a plain identifier `key`:
optional leading whitespace, the key verbatim, optional whitespace, `'='`. -/
def matchKeyAssign (key line : List Char) : Bool :=
  match stripPre key (dropWs line) with
  | none => false
  | some rest => headIsEq (dropWs rest)

/-- `re.sub(r"=\s*.*$", f"= {fm}", line)`: everything from the first `'='` to
the end of the line is replaced by `'=' ' ' ++ fm`; a line with no `'='` is
unchanged. -/
def subAfterEq (fm : List Char) : List Char → List Char
  | [] => []
  | c :: cs => if c = '=' then '=' :: ' ' :: fm else c :: subAfterEq fm cs

/-- One line of the replacement loop: the first matching key rewrites the line
and stops (`break`); no match leaves the line unchanged. -/
def transformLine : List (List Char × PyVal) → List Char → List Char
  | [], line => line
  | (k, v) :: rest, line =>
    if matchKeyAssign k line then subAfterEq (fmtVal v) line
    else transformLine rest line

/-- The whole replacement loop over the split lines. -/
def applyReplacements (repls : List (List Char × PyVal)) (lines : List (List Char)) :
    List (List Char) :=
  lines.map (transformLine repls)

/-- A plain identifier key: nonempty, only ASCII alphanumerics or `'_'`.  The
code interpolates keys into regex patterns verbatim, so this is the class of
keys on which the model and the code agree. -/
def plainKey (k : List Char) : Bool :=
  !k.isEmpty && k.all (fun c => c.isAlphanum || c = '_')

/-! ## Module-type detection

Two distinct heuristics exist in the source:
 * `run_terraform_commands` (tasks/terraform.py lines 157-181) checks the
   directory basename first and falls back to the full path;
 * `create_task_specific_tfvars` (config.py lines 190-204) checks the full
   path first and falls back to the basename. -/

/-- Whether a string indicates a superset module (`"createSuperset" in s or
"superset" in s.lower()`). -/
def supersetIndicator (s : String) : Bool :=
  containsSub s "createSuperset" || containsSub (lowerStr s) "superset"

/-- Whether a string indicates a warehouse module (`"createWarehouse" in s or
"warehouse" in s.lower()`). -/
def warehouseIndicator (s : String) : Bool :=
  containsSub s "createWarehouse" || containsSub (lowerStr s) "warehouse"

/-- Module-type detection of `run_terraform_commands` (tasks/terraform.py
lines 157-181): basename first, then full path, defaulting to `"superset"`. -/
def module_type_of_task_path (p : String) : String :=
  let d := pyBasename p
  if supersetIndicator d then "superset"
  else if warehouseIndicator d then "warehouse"
  else if supersetIndicator p then "superset"
  else if warehouseIndicator p then "warehouse"
  else "superset"

/-- Module-type detection of `create_task_specific_tfvars` (config.py lines
190-204): full path first, then basename.  In the final fallback the code
logs \"defaulting to 'superset'\" but never reassigns, so the initial value
`"warehouse"` is kept. -/
def module_type_of_config_path (p : String) : String :=
  if supersetIndicator p then "superset"
  else if warehouseIndicator p then "warehouse"
  else
    let d := pyBasename p
    if containsSub (lowerStr d) "superset" then "superset"
    else if containsSub (lowerStr d) "warehouse" then "warehouse"
    else "warehouse"

/-! ## Paths of `Settings` (config.py) -/

/-- Default `Settings.TERRAFORM_SCRIPT_PATH_CREATE_WAREHOUSE`. -/
def TERRAFORM_SCRIPT_PATH_CREATE_WAREHOUSE : String :=
  "app/terraform_files/createWarehouse"

/-- Default `Settings.TERRAFORM_SCRIPT_PATH_CREATE_SUPERSET`. -/
def TERRAFORM_SCRIPT_PATH_CREATE_SUPERSET : String :=
  "app/terraform_files/createSuperset"

/-- The `terraform_files` fixup of `create_task_specific_tfvars` (config.py
lines 175-182): the prefix of the path components up to and including the
first component equal to `"terraform_files"`, when one exists. -/
def takeToTerraformFiles : List (List Char) → Option (List (List Char))
  | [] => none
  | p :: rest =>
    if p = "terraform_files".data then some [p]
    else (takeToTerraformFiles rest).map (fun pre => p :: pre)

/-- The directory in which `create_task_specific_tfvars` places job-scoped
files (config.py lines 166-188): `dirname(dirname(abs_module_path))`, fixed up
to the nearest enclosing `terraform_files` component when that double-dirname
does not itself end in `terraform_files`, then joined with
`"temp_task_configs"`. -/
def createTaskConfigsDir (cwd module_path : String) : String :=
  let abs_module_path := pyAbspath cwd module_path
  let tfd0 := pyDirname (pyDirname abs_module_path)
  let terraform_files_dir :=
    if endsWithStr tfd0 "terraform_files" then tfd0
    else
      match takeToTerraformFiles (splitOnChar '/' abs_module_path.data) with
      | some pre => String.mk (joinChar '/' pre)
      | none => tfd0
  pyJoin terraform_files_dir "temp_task_configs"

/-- `Settings.create_task_specific_tfvars` (config.py lines 154-248) over the
filesystem model: reads the module's canonical `terraform.tfvars`, applies the
replacement loop (splitting lines with `str.splitlines`, joining with
`"\n".join`), and writes the result to a job-scoped path
`{module_type}.{task_id}.tfvars` inside the task-configs directory.  A missing
canonical file raises `FileNotFoundError` (modelled as `.error`). -/
def create_task_specific_tfvars (cwd : String) (fs : FS) (module_path task_id : String)
    (replacements : List (String × PyVal)) : Except String (FS × String) :=
  let abs_module_path := pyAbspath cwd module_path
  let module_type := module_type_of_config_path abs_module_path
  let task_tfvars_path :=
    pyJoin (createTaskConfigsDir cwd module_path)
      (module_type ++ "." ++ task_id ++ ".tfvars")
  let original_tfvars_path := pyJoin abs_module_path "terraform.tfvars"
  match fsRead fs original_tfvars_path with
  | none => .error ("Original terraform.tfvars not found at " ++ original_tfvars_path)
  | some content =>
    let content2 :=
      if replacements.isEmpty then content
      else
        String.mk (joinChar '\n'
          (applyReplacements (replacements.map (fun kv => (kv.1.data, kv.2)))
            (pySplitlines content.data)))
    .ok (fsWrite fs task_tfvars_path content2, task_tfvars_path)

/-- The task-configs directory used by `cleanup_task_tfvars` and
`get_task_tfvars_path` (config.py lines 266-267 and 281-282):
`dirname(dirname(abspath(TERRAFORM_SCRIPT_PATH_CREATE_SUPERSET)))` joined with
`"temp_task_configs"` — note: no `terraform_files` fixup here. -/
def cleanupTaskConfigsDir (cwd : String) : String :=
  pyJoin (pyDirname (pyDirname (pyAbspath cwd TERRAFORM_SCRIPT_PATH_CREATE_SUPERSET)))
    "temp_task_configs"

/-- `Settings.get_task_tfvars_path` (config.py lines 250-270). -/
def get_task_tfvars_path (cwd module_type task_id : String) : Except String String :=
  if module_type ≠ "warehouse" ∧ module_type ≠ "superset" then
    .error ("Invalid module_type: " ++ module_type)
  else
    .ok (pyJoin (cleanupTaskConfigsDir cwd) (module_type ++ "." ++ task_id ++ ".tfvars"))

/-- `Settings.cleanup_task_tfvars(task_id)` (config.py lines 272-298, the
branch with a task id): for each module type, remove the file
`{module_type}.{task_id}.tfvars` from the cleanup task-configs directory if it
exists; missing files are skipped without error. -/
def cleanup_task_tfvars (cwd : String) (fs : FS) (task_id : String) : FS :=
  let d := cleanupTaskConfigsDir cwd
  let fs1 := fsRemove fs (pyJoin d ("warehouse." ++ task_id ++ ".tfvars"))
  fsRemove fs1 (pyJoin d ("superset." ++ task_id ++ ".tfvars"))

/-- `TerraformTask.on_success` (tasks/terraform.py lines 105-111): cleans up
the task-specific tfvars files for the finished task. -/
def TerraformTask.on_success (cwd : String) (fs : FS) (task_id : String) : FS :=
  cleanup_task_tfvars cwd fs task_id

/-- `TerraformTask.on_failure` (tasks/terraform.py lines 95-103): cleans up
the task-specific tfvars files for the failed task. -/
def TerraformTask.on_failure (cwd : String) (fs : FS) (task_id : String) : FS :=
  cleanup_task_tfvars cwd fs task_id

/-! ## `update_tfvars_with_org_slug` (api/v1/endpoints/terraform.py lines 31-54)

`re.sub(rf'^({key}\s*=\s*)"[^"]*"(.*)$', rf'\1"{value}"\2', content,
flags=re.MULTILINE)` for each replacement, then the result is written back to
the SAME file it was read from. -/

/-- Split a character list at its first `'"'`: `some (before, after)` when one
exists. -/
def breakQuote : List Char → Option (List Char × List Char)
  | [] => none
  | c :: cs =>
    if c = '"' then some ([], cs)
    else (breakQuote cs).map (fun r => (c :: r.1, r.2))

/-- One line of the `update_tfvars_with_org_slug` substitution: the line must
start with `key` verbatim (no leading whitespace allowed by the pattern),
followed by `\s*=\s*`, a double-quoted run without inner quotes, and an
arbitrary tail; the quoted run is replaced by the quoted `value`.  Lines that
do not match are unchanged. -/
def subOrgLine (key value line : List Char) : List Char :=
  match stripPre key line with
  | none => line
  | some r1 =>
    let s1 := spanWs r1
    match s1.2 with
    | '=' :: r3 =>
      let s2 := spanWs r3
      match s2.2 with
      | '"' :: r5 =>
        match breakQuote r5 with
        | some q => key ++ s1.1 ++ '=' :: s2.1 ++ '"' :: value ++ '"' :: q.2
        | none => line
      | _ => line
    | _ => line

/-- The full multiline substitution for one `(key, value)` pair. -/
def applyOrgSub (key value : String) (content : String) : String :=
  String.mk (joinChar '\n'
    ((splitOnChar '\n' content.data).map (subOrgLine key.data value.data)))

/-- `update_tfvars_with_org_slug(file_path, replacements)` over the filesystem
model: reads `file_path`, applies every substitution, and writes the result
back to `file_path` — the canonical template is mutated in place.  Any
exception (e.g. a missing file) is caught and reported as `false`. -/
def update_tfvars_with_org_slug (fs : FS) (file_path : String)
    (replacements : List (String × String)) : FS × Bool :=
  match fsRead fs file_path with
  | none => (fs, false)
  | some content =>
    let content2 := replacements.foldl (fun c kv => applyOrgSub kv.1 kv.2 c) content
    (fsWrite fs file_path content2, true)

/-! ## Provisioning sequencer (`run_terraform_commands`, tasks/terraform.py)

The sequencer is embedded as a pure function of an *environment* recording the
outcome of every external command it may issue, plus the filesystem checks it
performs.  The returned trace lists the terraform commands actually run, in
order, so that retry/destroy multiplicities are provable. -/

/-- Outcome of one external command: exit code and captured output. -/
structure CmdResult where
  code : Int := 0
  stdout : String := ""
  stderr : String := ""

/-- A credential value: the enqueue endpoints store strings, and the
output-enrichment step stores a boolean under `port_changed`. -/
inductive CredVal where
  | s (v : String)
  | b (v : Bool)

/-- A credentials mapping (`Dict[str, str]` plus enrichment). -/
def Creds := List (String × CredVal)

/-- Terraform commands the sequencer can issue; `lockDisabled` marks the
`-lock=false` retry variant of a phase. -/
inductive Cmd where
  | stateList
  | forceUnlock
  | init (lockDisabled : Bool)
  | plan (lockDisabled : Bool)
  | apply (lockDisabled : Bool)
  | destroy
  | output
deriving DecidableEq, Repr

/-- Parsed `terraform output -json` as far as the sequencer inspects it:
`actual_port` / `actual_priority` are `some` exactly when the key is present
with a truthy `value`, `port_changed` is the truthy-ness of that output.
A parse failure is the all-absent value (`outputs = {}`). -/
structure TFOutputs where
  actual_port : Option String := none
  port_changed : Bool := false
  actual_priority : Option String := none

/-- Environment of one `run_terraform_commands` invocation: filesystem checks
and the result of each external command the sequencer may issue.  `excFlag`
models an unexpected exception raised inside the `try` block (caught by the
final `except` handler).  `lockIdFound` is the result of the
`Lock Info:\s+ID:` regex search on the state-list stderr. -/
structure TFEnv where
  excFlag : Bool := false
  terraformPathExists : Bool := true
  mainTfExists : Bool := true
  originalTfvarsExists : Bool := true
  taskTfvarsExists : Bool := true
  stateList : CmdResult := {}
  lockIdFound : Option String := none
  forceUnlock : CmdResult := {}
  init1 : CmdResult := {}
  init2 : CmdResult := {}
  plan1 : CmdResult := {}
  plan2 : CmdResult := {}
  apply1 : CmdResult := {}
  apply2 : CmdResult := {}
  destroyCmd : CmdResult := {}
  outputCmd : CmdResult := {}
  outputs : TFOutputs := {}

/-- Structured result of `run_terraform_commands` (the returned dict; the
timestamp fields carry no information relevant to the claims and are
omitted). -/
structure TFRunResult where
  status : String
  phase : Option String := none
  error : Option String := none
  stderrField : Option String := none
  init_output : Option String := none
  plan_output : Option String := none
  apply_output : Option String := none
  destroy_status : Option String := none
  destroy_output : Option String := none
  outputsField : Option TFOutputs := none
  credentials : Option Creds := none

/-- The lock indicator test used everywhere: `"lock" in stderr.lower()`. -/
def hasLockIndicator (s : String) : Bool :=
  containsSub (lowerStr s) "lock"

/-- The per-phase retry policy (tasks/terraform.py lines 288-294, 318-324,
350-356): when the first run exits non-zero with a lock indicator in stderr,
the single `-lock=false` retry result replaces it; the Bool records whether
the retry ran. -/
def retryPhase (first retry : CmdResult) : CmdResult × Bool :=
  if first.code ≠ 0 ∧ hasLockIndicator first.stderr then (retry, true)
  else (first, false)

/-- Best-effort lock cleanup trace (tasks/terraform.py lines 260-279):
`terraform state list` always runs; `terraform force-unlock` runs only when
the stderr has a lock indicator and the lock-id regex matched. -/
def lockCleanupTrace (env : TFEnv) : List Cmd :=
  if hasLockIndicator env.stateList.stderr then
    match env.lockIdFound with
    | some _ => [Cmd.stateList, Cmd.forceUnlock]
    | none => [Cmd.stateList]
  else [Cmd.stateList]

/-- Association lookup in a credentials mapping. -/
def credLookup (c : List (String × CredVal)) (k : String) : Option CredVal :=
  match c with
  | [] => none
  | (k', v) :: rest => if k' = k then some v else credLookup rest k

/-- Set a key in a credentials mapping (Python `d[k] = v`). -/
def credSet (c : List (String × CredVal)) (k : String) (v : CredVal) :
    List (String × CredVal) :=
  match c with
  | [] => [(k, v)]
  | (k', v') :: rest => if k' = k then (k, v) :: rest else (k', v') :: credSet rest k v

/-- The post-apply credential enrichment (tasks/terraform.py lines 408-429):
when a truthy `actual_port` output exists and the credentials dict is truthy
and contains `superset_url`, add `port`, `port_changed` and (when present)
`priority`. -/
def enrichCredentials (outs : TFOutputs) (creds : Option Creds) : Option Creds :=
  match outs.actual_port with
  | none => creds
  | some port =>
    match creds with
    | none => none
    | some c =>
      if ¬c.isEmpty ∧ (credLookup c "superset_url").isSome then
        let c1 := credSet c "port" (.s port)
        let c2 := credSet c1 "port_changed" (.b outs.port_changed)
        let c3 :=
          match outs.actual_priority with
          | some pr => credSet c2 "priority" (.s pr)
          | none => c2
        some c3
      else some c

/-- `run_terraform_commands` (tasks/terraform.py lines 114-463): the command
sequence with its early error returns, per-phase lock retry, destroy on apply
failure, and credential handling.  Returns the structured result together with
the trace of terraform commands issued. -/
def run_terraform_commands (env : TFEnv) (credentials : Option Creds) :
    TFRunResult × List Cmd :=
  if env.excFlag then
    ({ status := "error",
       error := some "Unexpected error during Terraform execution",
       credentials := none }, [])
  else if ¬env.terraformPathExists then
    ({ status := "error",
       error := some "Terraform script path not found",
       credentials := none }, [])
  else if ¬env.mainTfExists then
    ({ status := "error",
       error := some "main.tf not found",
       credentials := none }, [])
  else if ¬env.originalTfvarsExists then
    ({ status := "error",
       error := some "Unexpected error during Terraform execution: Original terraform.tfvars not found",
       credentials := none }, [])
  else if ¬env.taskTfvarsExists then
    ({ status := "error",
       error := some "Task-specific tfvars file not found",
       credentials := none }, [])
  else
    let pre := lockCleanupTrace env
    let ir := retryPhase env.init1 env.init2
    let iTr := Cmd.init false :: (if ir.2 then [Cmd.init true] else [])
    if ir.1.code ≠ 0 then
      ({ status := "error", phase := some "init",
         error := some ("Terraform init failed: " ++ ir.1.stderr),
         stderrField := some ir.1.stderr,
         init_output := some ir.1.stdout,
         credentials := none }, pre ++ iTr)
    else
      let pr := retryPhase env.plan1 env.plan2
      let pTr := Cmd.plan false :: (if pr.2 then [Cmd.plan true] else [])
      if pr.1.code ≠ 0 then
        ({ status := "error", phase := some "plan",
           error := some ("Terraform plan failed: " ++ pr.1.stderr),
           stderrField := some pr.1.stderr,
           init_output := some ir.1.stdout,
           plan_output := some pr.1.stdout,
           credentials := none }, pre ++ iTr ++ pTr)
      else
        let ar := retryPhase env.apply1 env.apply2
        let aTr := Cmd.apply false :: (if ar.2 then [Cmd.apply true] else [])
        if ar.1.code ≠ 0 then
          ({ status := "error", phase := some "apply",
             error := some ("Terraform apply failed: " ++ ar.1.stderr),
             stderrField := some ar.1.stderr,
             init_output := some ir.1.stdout,
             plan_output := some pr.1.stdout,
             apply_output := some ar.1.stdout,
             destroy_status :=
               some (if env.destroyCmd.code = 0 then "success" else "failed"),
             destroy_output :=
               some (if env.destroyCmd.code = 0 then env.destroyCmd.stdout
                     else "Destroy failed: " ++ env.destroyCmd.stderr),
             credentials := none }, pre ++ iTr ++ pTr ++ aTr ++ [Cmd.destroy])
        else
          ({ status := "success",
             init_output := some ir.1.stdout,
             plan_output := some pr.1.stdout,
             apply_output := some ar.1.stdout,
             outputsField := some env.outputs,
             credentials := enrichCredentials env.outputs credentials },
           pre ++ iTr ++ pTr ++ aTr ++ [Cmd.output])

/-! ## Job store (`TerraformJobStore`, services/terraform_job_store.py)

`update_job` / `set_job_error` operate on the Redis hash of one job: an
association list from field name to stored string.  Value serialisation
(isoformat for datetimes, `json.dumps` for `outputs`, `.value` for the status
enum, `str(...)` otherwise) always yields a string and happens only after the
`None` check, so kwarg values are modelled as the resulting strings. -/

/-- The Redis hash of one job. -/
def JobHash := List (String × String)

/-- A keyed store of job hashes (`job:{id}` keys). -/
def JobStoreState := List (String × JobHash)

/-- `hget` on a job hash. -/
def hashGet (h : JobHash) (k : String) : Option String :=
  match h with
  | [] => none
  | (k', v) :: rest => if k' = k then some v else hashGet rest k

/-- `hset` on a job hash. -/
def hashSet (h : JobHash) (k v : String) : JobHash :=
  match h with
  | [] => [(k, v)]
  | (k', v') :: rest => if k' = k then (k, v) :: rest else (k', v') :: hashSet rest k v

/-- Look up a job hash by id. -/
def storeGet (st : JobStoreState) (job_id : String) : Option JobHash :=
  match st with
  | [] => none
  | (i, h) :: rest => if i = job_id then some h else storeGet rest job_id

/-- Replace a job hash by id (no-op when absent). -/
def storeSet (st : JobStoreState) (job_id : String) (h : JobHash) : JobStoreState :=
  match st with
  | [] => []
  | (i, h') :: rest =>
    if i = job_id then (i, h) :: rest else (i, h') :: storeSet rest job_id h

/-- The kwarg-filtering loop of `update_job` (terraform_job_store.py lines
100-118): `None` values are skipped, every other value is serialised to a
string and written into the hash. -/
def applyJobKwargs (h : JobHash) (kwargs : List (String × Option String)) : JobHash :=
  kwargs.foldl
    (fun acc kv =>
      match kv.2 with
      | none => acc
      | some v => hashSet acc kv.1 v)
    h

/-- `TerraformJobStore.update_job` (terraform_job_store.py lines 93-119): a
missing job id raises `ValueError`; otherwise the non-`None` kwargs are merged
into the job's hash. -/
def update_job (st : JobStoreState) (job_id : String)
    (kwargs : List (String × Option String)) : Except String JobStoreState :=
  match storeGet st job_id with
  | none => .error ("Job ID " ++ job_id ++ " not found")
  | some h => .ok (storeSet st job_id (applyJobKwargs h kwargs))

/-- `TerraformJobStore.set_job_error` (terraform_job_store.py lines 136-147):
always sets status/error/completed_at; the `stderr` field is added only when
the argument is truthy (neither `None` nor the empty string). -/
def set_job_error (st : JobStoreState) (job_id : String) (error : String)
    (stderr : Option String) (now : String) : Except String JobStoreState :=
  let base : List (String × Option String) :=
    [("status", some "error"), ("error", some error), ("completed_at", some now)]
  let kwargs :=
    match stderr with
    | some s => if s ≠ "" then base ++ [("stderr", some s)] else base
    | none => base
  update_job st job_id kwargs

/-! ### `get_job_status` (terraform_job_store.py lines 149-170)

`get_job` parses the stored hash into a `TerraformResult`; `get_job_status`
derives the client-facing view from it.  The claims concern the view
derivation, so the embedding starts from the parsed record. -/

/-- `TerraformStatus` (schemas/terraform.py). -/
inductive JobStatus where
  | pending
  | running
  | success
  | error
deriving DecidableEq, Repr

/-- The parsed job record (`TerraformResult` as populated by `get_job`). -/
structure JobRecord where
  job_id : String
  status : JobStatus
  error : Option String := none
  created_at : String := ""
  completed_at : Option String := none
  outputsJson : Option String := none
  task_id : Option String := none
  credentials : Option (List (String × String)) := none

/-- The client-facing view built by `get_job_status`
(`TerraformJobStatusResponse`). -/
structure JobStatusView where
  job_id : String
  status : JobStatus
  message : String
  error : Option String := none
  created_at : String := ""
  completed_at : Option String := none
  outputsJson : Option String := none
  task_id : Option String := none
  credentials : Option (List (String × String)) := none

/-- `TerraformJobStore._get_status_message` (lines 172-182). -/
def get_status_message (job : JobRecord) : String :=
  match job.status with
  | .pending => "Terraform job is pending execution"
  | .running => "Terraform job is currently running"
  | .success => "Terraform job completed successfully"
  | .error =>
    "Terraform job failed: " ++
      (match job.error with
       | some e => e
       | none => "None")

/-- Python truthiness of the parsed credentials dict: `None` and `{}` are
falsy. -/
def credsTruthy : Option (List (String × String)) → Bool
  | none => false
  | some [] => false
  | some (_ :: _) => true

/-- `TerraformJobStore.get_job_status` (lines 149-170): compose the view with
`credentials := none` by default, then populate it only when the record's
status is SUCCESS and the record's credentials are truthy. -/
def get_job_status (job? : Option JobRecord) : Option JobStatusView :=
  match job? with
  | none => none
  | some job =>
    let base : JobStatusView :=
      { job_id := job.job_id
        status := job.status
        message := get_status_message job
        error := job.error
        created_at := job.created_at
        completed_at := job.completed_at
        outputsJson := job.outputsJson
        task_id := job.task_id
        credentials := none }
    if job.status = .success ∧ credsTruthy job.credentials then
      some { base with credentials := job.credentials }
    else some base

/-! ## Helper lemmas: hash / store operations -/

/-- Reading an untouched key through `hashSet`. -/
theorem hashGet_hashSet_ne (h : JobHash) (k k' v : String) (hne : k' ≠ k) :
    hashGet (hashSet h k' v) k = hashGet h k := by
  induction h with
  | nil => simp [hashSet, hashGet, hne]
  | cons kv rest ih =>
    obtain ⟨k₀, v₀⟩ := kv
    by_cases hk : k₀ = k'
    · subst hk
      simp [hashSet, hashGet, hne]
    · simp only [hashSet, if_neg hk]
      by_cases hk2 : k₀ = k
      · simp [hashGet, hk2]
      · simp [hashGet, hk2, ih]

/-- Reading the key just written by `hashSet`. -/
theorem hashGet_hashSet_eq (h : JobHash) (k v : String) :
    hashGet (hashSet h k v) k = some v := by
  induction h with
  | nil => simp [hashSet, hashGet]
  | cons kv rest ih =>
    obtain ⟨k₀, v₀⟩ := kv
    by_cases hk : k₀ = k
    · simp [hashSet, hashGet, hk]
    · simp [hashSet, hashGet, hk, ih]

/-- A key that no kwarg sets is untouched by the kwarg-filtering loop; in
particular a kwarg present with value `None` cannot change it. -/
theorem hashGet_applyJobKwargs_not_set (kwargs : List (String × Option String))
    (h : JobHash) (k : String) (hk : ∀ v, (k, some v) ∉ kwargs) :
    hashGet (applyJobKwargs h kwargs) k = hashGet h k := by
  induction kwargs generalizing h with
  | nil => rfl
  | cons kv rest ih =>
    obtain ⟨k₀, v₀?⟩ := kv
    have hrest : ∀ v, (k, some v) ∉ rest := by
      intro v hv
      exact hk v (List.mem_cons_of_mem _ hv)
    match v₀? with
    | none => simpa [applyJobKwargs] using ih h hrest
    | some v₀ =>
      have hne : k₀ ≠ k := by
        rintro rfl
        exact hk v₀ (List.mem_cons_self _ _)
      calc hashGet (applyJobKwargs (hashSet h k₀ v₀) rest) k
          = hashGet (hashSet h k₀ v₀) k := ih _ hrest
        _ = hashGet h k := hashGet_hashSet_ne h k k₀ v₀ hne

/-- Reading the stored hash of a job after `storeSet` on that job. -/
theorem storeGet_storeSet_self (st : JobStoreState) (job_id : String) (h h₀ : JobHash)
    (hp : storeGet st job_id = some h₀) :
    storeGet (storeSet st job_id h) job_id = some h := by
  induction st with
  | nil => simp [storeGet] at hp
  | cons ih rest ihr =>
    obtain ⟨i, h'⟩ := ih
    by_cases hi : i = job_id
    · simp [storeGet, storeSet, hi]
    · simp only [storeGet, if_neg hi] at hp
      simp [storeGet, storeSet, hi, ihr hp]

/-- A field of a stored job, read through the store. -/
def jobField (st : JobStoreState) (job_id k : String) : Option String :=
  match storeGet st job_id with
  | none => none
  | some h => hashGet h k

/-- C10: `update_job` skips every kwarg whose value is `None`, so no stored
field can be overwritten or cleared by passing `None`, and fields not named in
the call are left unchanged; in particular `set_job_error(job_id, error,
stderr=None)` updates status, error and completed_at but leaves a previously
stored stderr intact. -/
theorem update_job_skips_none_fields :
    (∀ (st : JobStoreState) (job_id : String) (kwargs : List (String × Option String))
        (st' : JobStoreState) (k : String),
      update_job st job_id kwargs = .ok st' →
      (∀ v, (k, some v) ∉ kwargs) →
      jobField st' job_id k = jobField st job_id k) ∧
    (∀ (st : JobStoreState) (job_id error now s₀ : String) (st' : JobStoreState),
      jobField st job_id "stderr" = some s₀ →
      set_job_error st job_id error none now = .ok st' →
      jobField st' job_id "stderr" = some s₀ ∧
      jobField st' job_id "status" = some "error" ∧
      jobField st' job_id "error" = some error ∧
      jobField st' job_id "completed_at" = some now) := by
  have frame : ∀ (st : JobStoreState) (job_id : String)
      (kwargs : List (String × Option String)) (st' : JobStoreState) (k : String),
      update_job st job_id kwargs = .ok st' →
      (∀ v, (k, some v) ∉ kwargs) →
      jobField st' job_id k = jobField st job_id k := by
    intro st job_id kwargs st' k hok hk
    unfold update_job at hok
    cases hg : storeGet st job_id with
    | none => rw [hg] at hok; exact absurd hok (by simp)
    | some h₀ =>
      rw [hg] at hok
      have hst' : st' = storeSet st job_id (applyJobKwargs h₀ kwargs) := by
        cases hok; rfl
      subst hst'
      unfold jobField
      rw [storeGet_storeSet_self st job_id _ h₀ hg, hg]
      exact hashGet_applyJobKwargs_not_set kwargs h₀ k hk
  refine ⟨frame, ?_⟩
  intro st job_id error now s₀ st' hs hok
  have hget : ∃ h₀, storeGet st job_id = some h₀ := by
    unfold jobField at hs
    cases hg : storeGet st job_id with
    | none => rw [hg] at hs; exact absurd hs (by simp)
    | some h₀ => exact ⟨h₀, rfl⟩
  obtain ⟨h₀, hg⟩ := hget
  have hok' : update_job st job_id
      [("status", some "error"), ("error", some error), ("completed_at", some now)] =
      .ok st' := hok
  unfold update_job at hok'
  rw [hg] at hok'
  have hst' : st' = storeSet st job_id (applyJobKwargs h₀
      [("status", some "error"), ("error", some error), ("completed_at", some now)]) := by
    cases hok'; rfl
  have hstderr : jobField st' job_id "stderr" = some s₀ := by
    rw [frame st job_id _ st' "stderr" hok (by intro v hv; simp at hv)]
    exact hs
  have hread : ∀ k, jobField st' job_id k =
      hashGet (applyJobKwargs h₀
        [("status", some "error"), ("error", some error), ("completed_at", some now)]) k := by
    intro k
    subst hst'
    unfold jobField
    rw [storeGet_storeSet_self st job_id _ h₀ hg]
  refine ⟨hstderr, ?_, ?_, ?_⟩
  · rw [hread "status"]
    simp only [applyJobKwargs, List.foldl_cons, List.foldl_nil]
    rw [hashGet_hashSet_ne _ _ _ _ (by decide), hashGet_hashSet_ne _ _ _ _ (by decide),
      hashGet_hashSet_eq]
  · rw [hread "error"]
    simp only [applyJobKwargs, List.foldl_cons, List.foldl_nil]
    rw [hashGet_hashSet_ne _ _ _ _ (by decide), hashGet_hashSet_eq]
  · rw [hread "completed_at"]
    simp only [applyJobKwargs, List.foldl_cons, List.foldl_nil]
    rw [hashGet_hashSet_eq]

/-- Concrete store for the C10 witness: one job with a stored stderr. -/
def c10Store : JobStoreState := [("j", [("stderr", "old stderr")])]

/-- Concrete post-state for the C10 witness. -/
def c10StoreAfter : JobStoreState :=
  [("j", [("stderr", "old stderr"), ("status", "error"), ("error", "boom"),
          ("completed_at", "2024-01-01T00:00:00")])]

/-- Witness for C10: on a concrete store, `set_job_error` with `stderr=None`
keeps the stored stderr while setting status, error and completed_at. -/
theorem update_job_skips_none_fields_witness :
    set_job_error c10Store "j" "boom" none "2024-01-01T00:00:00" = .ok c10StoreAfter ∧
    jobField c10StoreAfter "j" "stderr" = some "old stderr" ∧
    jobField c10StoreAfter "j" "status" = some "error" ∧
    jobField c10StoreAfter "j" "error" = some "boom" ∧
    jobField c10StoreAfter "j" "completed_at" = some "2024-01-01T00:00:00" := by
  refine ⟨rfl, ?_⟩
  exact update_job_skips_none_fields.2 c10Store "j" "boom" "2024-01-01T00:00:00"
    "old stderr" c10StoreAfter rfl rfl

/-- C2: `get_job_status` populates the view's credentials only when the stored
record's status is SUCCESS and the record holds non-empty credentials; for a
record in any other status the view's credentials are `none` even when the
underlying record contains stored credential data. -/
theorem get_job_status_credentials_gate :
    ∀ (job : JobRecord) (v : JobStatusView),
      get_job_status (some job) = some v →
      (job.status ≠ JobStatus.success → v.credentials = none) ∧
      (v.credentials ≠ none →
        job.status = JobStatus.success ∧ v.credentials = job.credentials ∧
        ∃ l, job.credentials = some l ∧ l ≠ []) := by
  intro job v h
  by_cases hc : job.status = JobStatus.success ∧ credsTruthy job.credentials
  · simp only [get_job_status, if_pos hc] at h
    cases h
    refine ⟨fun hns => absurd hc.1 hns, fun _ => ⟨hc.1, rfl, ?_⟩⟩
    have ht := hc.2
    cases hcr : job.credentials with
    | none => rw [hcr] at ht; simp [credsTruthy] at ht
    | some l =>
      cases l with
      | nil => rw [hcr] at ht; simp [credsTruthy] at ht
      | cons x xs => exact ⟨x :: xs, rfl, by simp⟩
  · simp only [get_job_status, if_neg hc] at h
    cases h
    exact ⟨fun _ => rfl, fun hcne => absurd rfl hcne⟩

/-- Concrete record for the C2 witness: a PENDING job that already holds
stored credential data (as the enqueue endpoints create). -/
def c2Record : JobRecord :=
  { job_id := "j", status := JobStatus.pending,
    credentials := some [("db_password", "secret")] }

/-- Concrete view for the C2 witness. -/
def c2View : JobStatusView :=
  { job_id := "j", status := JobStatus.pending,
    message := "Terraform job is pending execution", credentials := none }

/-- Witness for C2: a pending record with stored credentials yields a view
whose credentials are `none`. -/
theorem get_job_status_credentials_gate_witness :
    get_job_status (some c2Record) = some c2View ∧ c2View.credentials = none :=
  ⟨rfl, (get_job_status_credentials_gate c2Record c2View rfl).1 (by decide)⟩

/-! ## Helper lemmas: the replacement loop -/

/-- A plain-identifier character is not whitespace. -/
theorem plain_char_not_ws {c : Char} (h : (c.isAlphanum || c = '_') = true) :
    isPyWs c = false := by
  by_contra hw
  have hw' : isPyWs c = true := by
    cases hb : isPyWs c
    · exact absurd hb hw
    · rfl
  simp only [isPyWs, Bool.or_eq_true, decide_eq_true_eq] at hw'
  rcases hw' with ((((rfl | rfl) | rfl) | rfl) | rfl) | rfl <;> exact absurd h (by decide)

/-- A plain-identifier character is not `'='`. -/
theorem plain_char_ne_eq {c : Char} (h : (c.isAlphanum || c = '_') = true) :
    c ≠ '=' := by
  rintro rfl
  exact absurd h (by decide)

/-- Stripping a list from the front of itself-plus-rest. -/
theorem stripPre_append_self (k r : List Char) : stripPre k (k ++ r) = some r := by
  induction k with
  | nil => rfl
  | cons c ks ih => simp [stripPre, ih]

/-- `dropWs` is the identity on a list whose head is not whitespace. -/
theorem dropWs_not_ws {c : Char} (cs : List Char) (h : isPyWs c = false) :
    dropWs (c :: cs) = c :: cs := by
  simp [dropWs, h]

/-- The assignment-line regex matches `key ++ " =" ++ anything` for a plain
identifier key. -/
theorem matchKeyAssign_append (key rest : List Char) (hk : plainKey key = true) :
    matchKeyAssign key (key ++ ' ' :: '=' :: rest) = true := by
  simp only [plainKey, Bool.and_eq_true, List.all_eq_true] at hk
  obtain ⟨hne, hall⟩ := hk
  cases key with
  | nil => simp at hne
  | cons c ks =>
    have hcw : isPyWs c = false := plain_char_not_ws (hall c (by simp))
    unfold matchKeyAssign
    rw [List.cons_append, dropWs_not_ws _ hcw, ← List.cons_append,
      stripPre_append_self]
    simp [dropWs, isPyWs, headIsEq]

/-- `re.sub(r"=\s*.*$", ...)` on a line `key ++ " = ..."` with an `'='`-free
key rewrites everything after the first `'='`. -/
theorem subAfterEq_append (key fm rest : List Char) (hk : '=' ∉ key) :
    subAfterEq fm (key ++ ' ' :: '=' :: rest) = key ++ ' ' :: '=' :: ' ' :: fm := by
  induction key with
  | nil => simp [subAfterEq]
  | cons c ks ih =>
    have hc : c ≠ '=' := fun hc => hk (hc ▸ List.mem_cons_self c ks)
    have hks : '=' ∉ ks := fun hm => hk (List.mem_cons_of_mem c hm)
    simp [subAfterEq, hc, ih hks]

/-- A plain key contains no `'='`. -/
theorem plainKey_no_eq {key : List Char} (hk : plainKey key = true) : '=' ∉ key := by
  simp only [plainKey, Bool.and_eq_true, List.all_eq_true] at hk
  intro hm
  exact plain_char_ne_eq (hk.2 '=' hm) rfl

/-- Lines that match none of the replacement keys pass through the loop
unchanged. -/
theorem transformLine_no_match (repls : List (List Char × PyVal)) (l : List Char)
    (h : ∀ kv ∈ repls, matchKeyAssign kv.1 l = false) :
    transformLine repls l = l := by
  induction repls with
  | nil => rfl
  | cons kv rest ih =>
    obtain ⟨k, v⟩ := kv
    have hk : matchKeyAssign k l = false := h (k, v) (by simp)
    simp only [transformLine, hk]
    exact ih (fun kv hm => h kv (List.mem_cons_of_mem _ hm))

/-- `applyReplacements` leaves a block of non-matching lines untouched. -/
theorem applyReplacements_no_match (repls : List (List Char × PyVal))
    (lines : List (List Char)) (h : ∀ l ∈ lines, ∀ kv ∈ repls, matchKeyAssign kv.1 l = false) :
    applyReplacements repls lines = lines := by
  unfold applyReplacements
  induction lines with
  | nil => rfl
  | cons l ls ih =>
    simp only [List.map_cons]
    rw [transformLine_no_match repls l (h l (by simp)),
      ih (fun l' hl' => h l' (List.mem_cons_of_mem _ hl'))]

/-- One matching line through a single-replacement loop. -/
theorem transformLine_single (key rest : List Char) (v : PyVal)
    (hk : plainKey key = true) :
    transformLine [(key, v)] (key ++ ' ' :: '=' :: rest) =
      key ++ ' ' :: '=' :: ' ' :: fmtVal v := by
  simp only [transformLine, matchKeyAssign_append key rest hk, if_pos]
  exact subAfterEq_append key (fmtVal v) rest (plainKey_no_eq hk)

/-- C6 counterexample: with the all-digit string value `"7"`, the rewritten
line is `PORT = 7` (bare), not the claimed quoted form `PORT = "7"`. -/
theorem createJobVariables_digit_string_counterexample :
    applyReplacements [("PORT".data, PyVal.str "7".data)] ["PORT = \"old\"".data] =
      ["PORT = 7".data] ∧
    "PORT = 7".data ≠ "PORT = \"7\"".data := by
  constructor
  · rfl
  · decide

/-- C6 (amended): for a plain identifier key, rewriting a template containing
the line `key = "old"` with `{key: new}` yields `key = "new"` when `new` is
not an all-digit string, and the bare `key = new` when it is; every line not
matching the key is preserved byte-for-byte. -/
theorem createJobVariables_rewrites_line :
    ∀ (key old new : List Char) (pre post : List (List Char)),
      plainKey key = true →
      (∀ l ∈ pre ++ post, matchKeyAssign key l = false) →
      applyReplacements [(key, PyVal.str new)]
          (pre ++ [key ++ ' ' :: '=' :: ' ' :: '"' :: (old ++ ['"'])] ++ post) =
        pre ++ [key ++ ' ' :: '=' :: ' ' ::
          (if pyIsdigit new then new else '"' :: (new ++ ['"']))] ++ post := by
  intro key old new pre post hk hnm
  unfold applyReplacements
  rw [List.map_append, List.map_append]
  have hpre : List.map (transformLine [(key, PyVal.str new)]) pre = pre := by
    apply applyReplacements_no_match
    intro l hl kv hkv
    simp only [List.mem_singleton] at hkv
    subst hkv
    exact hnm l (List.mem_append_left _ hl)
  have hpost : List.map (transformLine [(key, PyVal.str new)]) post = post := by
    apply applyReplacements_no_match
    intro l hl kv hkv
    simp only [List.mem_singleton] at hkv
    subst hkv
    exact hnm l (List.mem_append_right _ hl)
  rw [hpre, hpost]
  simp only [List.map_cons, List.map_nil]
  rw [transformLine_single key _ (PyVal.str new) hk]
  simp [fmtVal]

/-- Witness for the amended C6 theorem at a concrete template. -/
theorem createJobVariables_rewrites_line_witness :
    applyReplacements [("APP_DB_NAME".data, PyVal.str "warehouse_acme".data)]
        ["# a comment".data,
         "APP_DB_NAME".data ++ ' ' :: '=' :: ' ' :: '"' :: ("old".data ++ ['"']),
         "other = 1".data] =
      ["# a comment".data,
       "APP_DB_NAME".data ++ ' ' :: '=' :: ' ' ::
         (if pyIsdigit "warehouse_acme".data then "warehouse_acme".data
          else '"' :: ("warehouse_acme".data ++ ['"'])),
       "other = 1".data] :=
  createJobVariables_rewrites_line "APP_DB_NAME".data "old".data "warehouse_acme".data
    ["# a comment".data] ["other = 1".data] (by decide) (by decide)

/-- C7 counterexample: an already-quoted string value is wrapped in a second
pair of quotes (`PASS = ""q""`) rather than written as-is (`PASS = "q"`): the
code has no already-quoted check. -/
theorem createJobVariables_requote_counterexample :
    applyReplacements [("APP_DB_PASS".data, PyVal.str "\"q\"".data)]
        ["APP_DB_PASS = \"x\"".data] =
      ["APP_DB_PASS = \"\"q\"\"".data] ∧
    "APP_DB_PASS = \"\"q\"\"".data ≠ "APP_DB_PASS = \"q\"".data := by
  constructor
  · rfl
  · decide

/-- C7 (amended): value formatting of the replacement loop — a string value is
quoted exactly when it is not an all-digit string (an already-quoted string
receives an additional pair of quotes, an all-digit string is written bare), a
boolean is written as a lowercase literal, a number is written bare, and a key
with no matching assignment line leaves the file unchanged (no new line, no
error). -/
theorem createJobVariables_value_formatting :
    ∀ (key rhs : List Char), plainKey key = true →
      ((∀ s : List Char, pyIsdigit s = false →
          applyReplacements [(key, PyVal.str s)] [key ++ ' ' :: '=' :: ' ' :: rhs] =
            [key ++ ' ' :: '=' :: ' ' :: '"' :: (s ++ ['"'])]) ∧
       (∀ s : List Char, pyIsdigit s = true →
          applyReplacements [(key, PyVal.str s)] [key ++ ' ' :: '=' :: ' ' :: rhs] =
            [key ++ ' ' :: '=' :: ' ' :: s]) ∧
       (applyReplacements [(key, PyVal.bool true)] [key ++ ' ' :: '=' :: ' ' :: rhs] =
          [key ++ ' ' :: '=' :: ' ' :: "true".data]) ∧
       (applyReplacements [(key, PyVal.bool false)] [key ++ ' ' :: '=' :: ' ' :: rhs] =
          [key ++ ' ' :: '=' :: ' ' :: "false".data]) ∧
       (∀ n : Int,
          applyReplacements [(key, PyVal.int n)] [key ++ ' ' :: '=' :: ' ' :: rhs] =
            [key ++ ' ' :: '=' :: ' ' :: (toString n).data]) ∧
       (∀ (v : PyVal) (lines : List (List Char)),
          (∀ l ∈ lines, matchKeyAssign key l = false) →
          applyReplacements [(key, v)] lines = lines)) := by
  intro key rhs hk
  have hline : ∀ v : PyVal,
      applyReplacements [(key, v)] [key ++ ' ' :: '=' :: ' ' :: rhs] =
        [key ++ ' ' :: '=' :: ' ' :: fmtVal v] := by
    intro v
    unfold applyReplacements
    simp only [List.map_cons, List.map_nil]
    rw [transformLine_single key (' ' :: rhs) v hk]
  refine ⟨?_, ?_, ?_, ?_, ?_, ?_⟩
  · intro s hs
    rw [hline (PyVal.str s)]
    simp [fmtVal, hs]
  · intro s hs
    rw [hline (PyVal.str s)]
    simp [fmtVal, hs]
  · rw [hline (PyVal.bool true)]
    simp [fmtVal]
  · rw [hline (PyVal.bool false)]
    simp [fmtVal]
  · intro n
    rw [hline (PyVal.int n)]
    simp [fmtVal]
  · intro v lines hnm
    apply applyReplacements_no_match
    intro l hl kv hkv
    simp only [List.mem_singleton] at hkv
    subst hkv
    exact hnm l hl

/-- Witness for the amended C7 theorem: concrete formatting of a string, an
all-digit string, a boolean and a number, plus a silently ignored key. -/
theorem createJobVariables_value_formatting_witness :
    applyReplacements [("A".data, PyVal.str "v1".data)] ["A".data ++ ' ' :: '=' :: ' ' :: "0".data] =
      ["A".data ++ ' ' :: '=' :: ' ' :: '"' :: ("v1".data ++ ['"'])] ∧
    applyReplacements [("A".data, PyVal.str "8080".data)] ["A".data ++ ' ' :: '=' :: ' ' :: "0".data] =
      ["A".data ++ ' ' :: '=' :: ' ' :: "8080".data] ∧
    applyReplacements [("A".data, PyVal.bool false)] ["A".data ++ ' ' :: '=' :: ' ' :: "0".data] =
      ["A".data ++ ' ' :: '=' :: ' ' :: "false".data] ∧
    applyReplacements [("A".data, PyVal.int 456)] ["A".data ++ ' ' :: '=' :: ' ' :: "0".data] =
      ["A".data ++ ' ' :: '=' :: ' ' :: (toString (456 : Int)).data] ∧
    applyReplacements [("A".data, PyVal.str "v".data)] ["b = 2".data] = ["b = 2".data] := by
  have h := createJobVariables_value_formatting "A".data "0".data (by decide)
  exact ⟨h.1 "v1".data (by decide), h.2.1 "8080".data (by decide), h.2.2.2.1,
    h.2.2.2.2.1 456, h.2.2.2.2.2 (PyVal.str "v".data) ["b = 2".data] (by decide)⟩

/-! ## Helper lemmas: path manipulation -/

/-- `takeWhile` passes over a block that satisfies the predicate. -/
theorem takeWhile_append_all {α : Type} (p : α → Bool) (a b : List α)
    (h : ∀ x ∈ a, p x = true) : (a ++ b).takeWhile p = a ++ b.takeWhile p := by
  induction a with
  | nil => simp
  | cons x xs ih =>
    have hx : p x = true := h x (by simp)
    simp only [List.cons_append, List.takeWhile_cons, hx, if_pos]
    rw [ih (fun y hy => h y (List.mem_cons_of_mem _ hy))]

/-- A string ending in `"/"` has `'/'` at the head of its reversed data. -/
theorem endsWithStr_slash {a : String} (h : endsWithStr a "/" = true) :
    ∃ rest, a.data.reverse = '/' :: rest := by
  unfold endsWithStr at h
  cases hrev : a.data.reverse with
  | nil => rw [hrev] at h; simp [stripPre] at h
  | cons c cs =>
    rw [hrev] at h
    by_cases hc : c = '/'
    · exact ⟨cs, by rw [hc]⟩
    · simp only [String.data] at h
      simp [stripPre, hc] at h

/-- `lastSeg` of a list whose elements are all non-slash is the list itself. -/
theorem lastSeg_no_slash (l : List Char) (h : ∀ c ∈ l, c ≠ '/') :
    lastSeg l = l := by
  unfold lastSeg
  rw [List.takeWhile_eq_self_iff.mpr ?_, List.reverse_reverse]
  intro c hc
  simp only [decide_eq_true_eq]
  exact h c (List.mem_reverse.mp hc)

/-- The last path segment of `pyJoin a f` is `f` whenever `f` is a nonempty
slash-free file name. -/
theorem lastSeg_pyJoin (a f : String)
    (hf : ∀ c ∈ f.data, c ≠ '/') : lastSeg (pyJoin a f).data = f.data := by
  have habs : pyIsAbs f = false := by
    unfold pyIsAbs
    cases hd : f.data with
    | nil => rfl
    | cons c cs =>
      have : c ≠ '/' := hf c (by rw [hd]; simp)
      simp [this]
  have hfrev : ∀ c ∈ f.data.reverse, (decide (c ≠ '/')) = true := by
    intro c hc
    simp only [decide_eq_true_eq]
    exact hf c (List.mem_reverse.mp hc)
  unfold pyJoin
  rw [habs]
  simp only [Bool.false_eq_true, if_false]
  by_cases ha : a = ""
  · rw [if_pos ha]
    exact lastSeg_no_slash f.data hf
  · rw [if_neg ha]
    by_cases hslash : endsWithStr a "/" = true
    · rw [if_pos hslash]
      obtain ⟨rest, hrest⟩ := endsWithStr_slash hslash
      unfold lastSeg
      rw [String.data_append, List.reverse_append, hrest,
        takeWhile_append_all _ f.data.reverse ('/' :: rest) hfrev]
      simp [List.takeWhile_cons]
    · rw [if_neg hslash]
      unfold lastSeg
      rw [String.data_append, String.data_append, List.reverse_append,
        List.reverse_append]
      have hmid : ("/" : String).data.reverse = ['/'] := by decide
      rw [hmid]
      rw [takeWhile_append_all _ f.data.reverse (['/'] ++ a.data.reverse) hfrev]
      simp [List.takeWhile_cons]

/-- The module-type tag computed by `create_task_specific_tfvars` is always
`"warehouse"` or `"superset"`. -/
theorem module_type_of_config_path_cases (p : String) :
    module_type_of_config_path p = "warehouse" ∨
    module_type_of_config_path p = "superset" := by
  unfold module_type_of_config_path
  repeat' split
  all_goals simp

/-- Reading an untouched path through `fsWrite`. -/
theorem fsRead_fsWrite_ne (fs : FS) (p q c : String) (h : q ≠ p) :
    fsRead (fsWrite fs p c) q = fsRead fs q := by
  induction fs with
  | nil =>
    simp only [fsWrite, fsRead]
    rw [if_neg (fun hpq => h hpq.symm)]
  | cons e rest ih =>
    obtain ⟨r, c'⟩ := e
    by_cases hr : r = p
    · subst hr
      simp only [fsWrite, if_pos rfl, fsRead]
      rw [if_neg (fun hq => h hq.symm), if_neg (fun hq => h hq.symm)]
    · simp only [fsWrite, if_neg hr, fsRead]
      by_cases hq : r = q
      · simp [hq]
      · simp [hq, ih]

/-- The job-scoped file name contains no slash when the task id contains
none. -/
theorem jobFileName_no_slash (mt tid : String)
    (hmt : mt = "warehouse" ∨ mt = "superset")
    (htid : ∀ c ∈ tid.data, c ≠ '/') :
    ∀ c ∈ (mt ++ "." ++ tid ++ ".tfvars").data, c ≠ '/' := by
  intro c hc
  rw [String.data_append, String.data_append, String.data_append] at hc
  simp only [List.mem_append] at hc
  rcases hc with ((hc | hc) | hc) | hc
  · rcases hmt with rfl | rfl
    · exact (by decide : ∀ x ∈ ("warehouse" : String).data, x ≠ '/') c hc
    · exact (by decide : ∀ x ∈ ("superset" : String).data, x ≠ '/') c hc
  · exact (by decide : ∀ x ∈ ("." : String).data, x ≠ '/') c hc
  · exact htid c hc
  · exact (by decide : ∀ x ∈ (".tfvars" : String).data, x ≠ '/') c hc

/-- The job-scoped tfvars path never coincides with the module's canonical
`terraform.tfvars` path: their final path segments differ. -/
theorem createTaskPath_ne_template (cwd mp tid : String)
    (htid : ∀ c ∈ tid.data, c ≠ '/') :
    pyJoin (pyAbspath cwd mp) "terraform.tfvars" ≠
      pyJoin (createTaskConfigsDir cwd mp)
        (module_type_of_config_path (pyAbspath cwd mp) ++ "." ++ tid ++ ".tfvars") := by
  intro heq
  have hmt := module_type_of_config_path_cases (pyAbspath cwd mp)
  have hfn := jobFileName_no_slash (module_type_of_config_path (pyAbspath cwd mp)) tid hmt htid
  have h1 : lastSeg (pyJoin (pyAbspath cwd mp) "terraform.tfvars").data =
      ("terraform.tfvars" : String).data :=
    lastSeg_pyJoin _ _ (by decide)
  have h2 : lastSeg (pyJoin (createTaskConfigsDir cwd mp)
      (module_type_of_config_path (pyAbspath cwd mp) ++ "." ++ tid ++ ".tfvars")).data =
      (module_type_of_config_path (pyAbspath cwd mp) ++ "." ++ tid ++ ".tfvars").data :=
    lastSeg_pyJoin _ _ hfn
  rw [heq, h2] at h1
  have hlen := congrArg List.length h1
  rw [String.data_append, String.data_append, String.data_append] at hlen h1
  simp only [List.length_append] at hlen
  rcases hmt with hmt | hmt <;> rw [hmt] at hlen h1
  · have : (16 : Nat) = 9 + 1 + tid.data.length + 7 := by
      simpa using hlen
    omega
  · have htl : tid.data.length = 0 := by
      have : (16 : Nat) = 8 + 1 + tid.data.length + 7 := by
        simpa using hlen
      omega
    have htide : tid.data = [] := List.length_eq_zero.mp htl
    rw [htide] at h1
    exact absurd h1 (by decide)

/-- C5 counterexample: `update_tfvars_with_org_slug` (called by the
create-warehouse enqueue endpoint on the module's canonical
`terraform.tfvars`) mutates the canonical template in place. -/
theorem provisioning_flow_mutates_template_counterexample :
    update_tfvars_with_org_slug
        [("app/terraform_files/createWarehouse/terraform.tfvars",
          "APP_DB_NAME = \"old\"")]
        "app/terraform_files/createWarehouse/terraform.tfvars"
        [("APP_DB_NAME", "warehouse_acme")] =
      ([("app/terraform_files/createWarehouse/terraform.tfvars",
         "APP_DB_NAME = \"warehouse_acme\"")], true) ∧
    fsRead
        (update_tfvars_with_org_slug
          [("app/terraform_files/createWarehouse/terraform.tfvars",
            "APP_DB_NAME = \"old\"")]
          "app/terraform_files/createWarehouse/terraform.tfvars"
          [("APP_DB_NAME", "warehouse_acme")]).1
        "app/terraform_files/createWarehouse/terraform.tfvars" ≠
      fsRead
        [("app/terraform_files/createWarehouse/terraform.tfvars",
          "APP_DB_NAME = \"old\"")]
        "app/terraform_files/createWarehouse/terraform.tfvars" := by
  constructor
  · rfl
  · intro h
    rw [show fsRead
        (update_tfvars_with_org_slug
          [("app/terraform_files/createWarehouse/terraform.tfvars",
            "APP_DB_NAME = \"old\"")]
          "app/terraform_files/createWarehouse/terraform.tfvars"
          [("APP_DB_NAME", "warehouse_acme")]).1
        "app/terraform_files/createWarehouse/terraform.tfvars" =
        some "APP_DB_NAME = \"warehouse_acme\"" from rfl,
      show fsRead
        [("app/terraform_files/createWarehouse/terraform.tfvars",
          "APP_DB_NAME = \"old\"")]
        "app/terraform_files/createWarehouse/terraform.tfvars" =
        some "APP_DB_NAME = \"old\"" from rfl] at h
    exact absurd (Option.some_injective _ h) (by decide)

/-- C5 (amended): `create_task_specific_tfvars` itself never touches the
canonical template — it leaves the module's `terraform.tfvars` byte-for-byte
unchanged and writes only the job-scoped file; the in-place mutation of the
canonical template happens in `update_tfvars_with_org_slug`, which the
enqueue endpoints run on the module's own `terraform.tfvars` before
enqueueing. -/
theorem create_task_specific_tfvars_preserves_template :
    ∀ (cwd : String) (fs : FS) (module_path task_id : String)
      (repls : List (String × PyVal)) (fs' : FS) (p : String),
      (∀ c ∈ task_id.data, c ≠ '/') →
      create_task_specific_tfvars cwd fs module_path task_id repls = .ok (fs', p) →
      (fsRead fs' (pyJoin (pyAbspath cwd module_path) "terraform.tfvars") =
        fsRead fs (pyJoin (pyAbspath cwd module_path) "terraform.tfvars")) ∧
      (∀ q, q ≠ p → fsRead fs' q = fsRead fs q) := by
  intro cwd fs mp tid repls fs' p htid hok
  simp only [create_task_specific_tfvars] at hok
  cases hread : fsRead fs (pyJoin (pyAbspath cwd mp) "terraform.tfvars") with
  | none => rw [hread] at hok; exact absurd hok (by simp)
  | some content =>
    rw [hread] at hok
    have hp : p = pyJoin (createTaskConfigsDir cwd mp)
        (module_type_of_config_path (pyAbspath cwd mp) ++ "." ++ tid ++ ".tfvars") := by
      cases hok; rfl
    have hfs' : fs' = fsWrite fs p
        (if repls.isEmpty then content
         else
           String.mk (joinChar '\n'
            (applyReplacements (repls.map (fun kv => (kv.1.data, kv.2)))
              (pySplitlines content.data)))) := by
      rw [hp]; cases hok; rfl
    constructor
    · rw [hfs', fsRead_fsWrite_ne, hread]
      rw [hp]
      exact createTaskPath_ne_template cwd mp tid htid
    · intro q hq
      rw [hfs', fsRead_fsWrite_ne]
      exact hq

/-- Witness for the amended C5 theorem on a concrete filesystem. -/
theorem create_task_specific_tfvars_preserves_template_witness :
    create_task_specific_tfvars "/srv"
        [("/srv/app/terraform_files/createWarehouse/terraform.tfvars", "x = 1")]
        "app/terraform_files/createWarehouse" "t1" [] =
      .ok ([("/srv/app/terraform_files/createWarehouse/terraform.tfvars", "x = 1"),
            ("/srv/app/terraform_files/temp_task_configs/warehouse.t1.tfvars", "x = 1")],
           "/srv/app/terraform_files/temp_task_configs/warehouse.t1.tfvars") ∧
    fsRead
        [("/srv/app/terraform_files/createWarehouse/terraform.tfvars", "x = 1"),
         ("/srv/app/terraform_files/temp_task_configs/warehouse.t1.tfvars", "x = 1")]
        (pyJoin (pyAbspath "/srv" "app/terraform_files/createWarehouse") "terraform.tfvars") =
      fsRead [("/srv/app/terraform_files/createWarehouse/terraform.tfvars", "x = 1")]
        (pyJoin (pyAbspath "/srv" "app/terraform_files/createWarehouse") "terraform.tfvars") := by
  refine ⟨rfl, ?_⟩
  exact (create_task_specific_tfvars_preserves_template "/srv"
    [("/srv/app/terraform_files/createWarehouse/terraform.tfvars", "x = 1")]
    "app/terraform_files/createWarehouse" "t1" []
    [("/srv/app/terraform_files/createWarehouse/terraform.tfvars", "x = 1"),
     ("/srv/app/terraform_files/temp_task_configs/warehouse.t1.tfvars", "x = 1")]
    "/srv/app/terraform_files/temp_task_configs/warehouse.t1.tfvars"
    (by decide) rfl).1

/-- C8 counterexample: for the module path `/data/superset/createWarehouse`
the basename `createWarehouse` indicates warehouse, yet
`create_task_specific_tfvars` classifies the module as `superset` because its
detection checks the full path first — the parent directory named `superset`
overrides the basename.  (`run_terraform_commands` classifies the same path as
`warehouse`.) -/
theorem module_type_priority_counterexample :
    pyBasename "/data/superset/createWarehouse" = "createWarehouse" ∧
    warehouseIndicator "createWarehouse" = true ∧
    supersetIndicator "createWarehouse" = false ∧
    module_type_of_config_path "/data/superset/createWarehouse" = "superset" ∧
    module_type_of_task_path "/data/superset/createWarehouse" = "warehouse" := by
  refine ⟨by decide, by decide, by decide, by decide, by decide⟩

/-- C8 (amended): in `run_terraform_commands` the directory-basename match
does take priority over the full-path match, so a contrary parent-directory
substring cannot change that classification; in
`create_task_specific_tfvars`, however, the full-path match is tried first
(with superset checked before warehouse), so the spec's cited example — a
`createSuperset` module beneath a parent directory named `warehouse` — is
still tagged superset by both functions, but basename priority does not hold
there in general. -/
theorem module_type_basename_priority :
    (∀ p : String, supersetIndicator (pyBasename p) = true →
      module_type_of_task_path p = "superset") ∧
    (∀ p : String, supersetIndicator (pyBasename p) = false →
      warehouseIndicator (pyBasename p) = true →
      module_type_of_task_path p = "warehouse") ∧
    (module_type_of_task_path "/x/warehouse/createSuperset" = "superset" ∧
     module_type_of_config_path "/x/warehouse/createSuperset" = "superset") := by
  refine ⟨?_, ?_, by decide, by decide⟩
  · intro p hs
    simp [module_type_of_task_path, hs]
  · intro p hs hw
    simp [module_type_of_task_path, hs, hw]

/-- Witness for the amended C8 theorem at concrete paths. -/
theorem module_type_basename_priority_witness :
    module_type_of_task_path "/a/createSuperset" = "superset" ∧
    module_type_of_task_path "/b/superset/createWarehouse" = "warehouse" :=
  ⟨module_type_basename_priority.1 "/a/createSuperset" (by decide),
   module_type_basename_priority.2.1 "/b/superset/createWarehouse" (by decide) (by decide)⟩

/-- The filesystem of the C9 failing input after the job-scoped file has been
created for task `t1` of the warehouse module (cwd `/srv`). -/
def c9FsAfterCreate : FS :=
  [("/srv/app/terraform_files/createWarehouse/terraform.tfvars", "x = 1"),
   ("/srv/app/terraform_files/temp_task_configs/warehouse.t1.tfvars", "x = 1")]

/-- C9 (code bug): `create_task_specific_tfvars` writes the job-scoped file
under `…/app/terraform_files/temp_task_configs` (it applies the
`terraform_files` fixup), but `cleanup_task_tfvars` — run by both terminal
handlers `on_success` and `on_failure` — computes
`dirname(dirname(abspath(TERRAFORM_SCRIPT_PATH_CREATE_SUPERSET)))` with no
fixup and therefore deletes from `…/app/temp_task_configs`.  After either
terminal handler runs, the job-scoped variable file still exists. -/
theorem cleanup_misses_job_scoped_file :
    create_task_specific_tfvars "/srv"
        [("/srv/app/terraform_files/createWarehouse/terraform.tfvars", "x = 1")]
        "app/terraform_files/createWarehouse" "t1" [] =
      .ok (c9FsAfterCreate,
           "/srv/app/terraform_files/temp_task_configs/warehouse.t1.tfvars") ∧
    createTaskConfigsDir "/srv" "app/terraform_files/createWarehouse" =
      "/srv/app/terraform_files/temp_task_configs" ∧
    cleanupTaskConfigsDir "/srv" = "/srv/app/temp_task_configs" ∧
    fsRead (TerraformTask.on_success "/srv" c9FsAfterCreate "t1")
        "/srv/app/terraform_files/temp_task_configs/warehouse.t1.tfvars" =
      some "x = 1" ∧
    fsRead (TerraformTask.on_failure "/srv" c9FsAfterCreate "t1")
        "/srv/app/terraform_files/temp_task_configs/warehouse.t1.tfvars" =
      some "x = 1" := by
  exact ⟨rfl, rfl, rfl, rfl, rfl⟩

/-! ## Helper lemmas: the command sequencer -/

/-- The lock-cleanup trace contains only state-list / force-unlock commands. -/
theorem lockCleanupTrace_count_zero (env : TFEnv) (c : Cmd)
    (h1 : c ≠ Cmd.stateList) (h2 : c ≠ Cmd.forceUnlock) :
    (lockCleanupTrace env).count c = 0 := by
  unfold lockCleanupTrace
  split
  · split <;> simp [List.count_cons, Ne.symm h1, Ne.symm h2]
  · simp [List.count_cons, Ne.symm h1]

/-- Counting in a conditional singleton block of another command. -/
theorem count_ite_single {P : Prop} [Decidable P] (x c : Cmd) (h : c ≠ x) :
    List.count c (if P then [x] else []) = 0 := by
  split <;> simp [List.count_cons, Ne.symm h]

/-- Every terminal result of `run_terraform_commands` either withholds
credentials or reports success. -/
theorem run_creds_none_or_success (env : TFEnv) (creds : Option Creds) :
    (run_terraform_commands env creds).1.credentials = none ∨
    (run_terraform_commands env creds).1.status = "success" := by
  by_cases h0 : env.excFlag <;>
  by_cases h1 : env.terraformPathExists <;>
  by_cases h2 : env.mainTfExists <;>
  by_cases h3 : env.originalTfvarsExists <;>
  by_cases h4 : env.taskTfvarsExists <;>
  by_cases hi : (retryPhase env.init1 env.init2).1.code = 0 <;>
  by_cases hp : (retryPhase env.plan1 env.plan2).1.code = 0 <;>
  by_cases ha : (retryPhase env.apply1 env.apply2).1.code = 0 <;>
  simp [run_terraform_commands, h0, h1, h2, h3, h4, hi, hp, ha]

/-- C1: whenever `run_terraform_commands` returns a terminal result with
status `"error"` — module path missing, main.tf missing, task tfvars missing,
init/plan/apply failure, or an unexpected exception — the result's
credentials field is `none`, regardless of the credentials argument. -/
theorem run_terraform_error_credentials_none (env : TFEnv) (creds : Option Creds)
    (h : (run_terraform_commands env creds).1.status = "error") :
    (run_terraform_commands env creds).1.credentials = none := by
  rcases run_creds_none_or_success env creds with hc | hs
  · exact hc
  · rw [hs] at h
    exact absurd h (by decide)

/-- Witness for C1: a missing module path yields an error result with no
credentials, even though credentials were supplied. -/
theorem run_terraform_error_credentials_none_witness :
    (run_terraform_commands { terraformPathExists := false }
        (some [("db_password", CredVal.s "secret")])).1.status = "error" ∧
    (run_terraform_commands { terraformPathExists := false }
        (some [("db_password", CredVal.s "secret")])).1.credentials = none :=
  ⟨rfl, run_terraform_error_credentials_none { terraformPathExists := false }
    (some [("db_password", CredVal.s "secret")]) rfl⟩

/-- C3: when the apply phase exits non-zero (after the single allowed lock
retry), destroy runs exactly once; the terminal result is `"error"` with
phase `"apply"` whatever the destroy outcome; destroy's outcome is recorded
only in `destroy_status`; and credentials are withheld. -/
theorem apply_failure_destroy_once :
    ∀ (env : TFEnv) (creds : Option Creds),
      env.excFlag = false →
      env.terraformPathExists = true →
      env.mainTfExists = true →
      env.originalTfvarsExists = true →
      env.taskTfvarsExists = true →
      (retryPhase env.init1 env.init2).1.code = 0 →
      (retryPhase env.plan1 env.plan2).1.code = 0 →
      (retryPhase env.apply1 env.apply2).1.code ≠ 0 →
      (run_terraform_commands env creds).2.count Cmd.destroy = 1 ∧
      (run_terraform_commands env creds).1.status = "error" ∧
      (run_terraform_commands env creds).1.phase = some "apply" ∧
      (run_terraform_commands env creds).1.credentials = none ∧
      (run_terraform_commands env creds).1.destroy_status =
        some (if env.destroyCmd.code = 0 then "success" else "failed") := by
  intro env creds h0 h1 h2 h3 h4 hi hp ha
  have hlock : (lockCleanupTrace env).count Cmd.destroy = 0 :=
    lockCleanupTrace_count_zero env Cmd.destroy (by simp) (by simp)
  simp [run_terraform_commands, h0, h1, h2, h3, h4, hi, hp, ha,
    List.count_append, List.count_cons, hlock, count_ite_single]

/-- Environment for the C3 witness: apply fails without a lock indicator,
destroy fails too. -/
def c3Env : TFEnv :=
  { apply1 := { code := 1, stderr := "boom" }, destroyCmd := { code := 1, stderr := "db" } }

/-- Witness for C3: with a failing apply and a failing destroy, destroy runs
once and the terminal result is an apply-phase error without credentials. -/
theorem apply_failure_destroy_once_witness :
    (run_terraform_commands c3Env (some [("a", CredVal.s "b")])).2.count Cmd.destroy = 1 ∧
    (run_terraform_commands c3Env (some [("a", CredVal.s "b")])).1.status = "error" ∧
    (run_terraform_commands c3Env (some [("a", CredVal.s "b")])).1.phase = some "apply" ∧
    (run_terraform_commands c3Env (some [("a", CredVal.s "b")])).1.credentials = none ∧
    (run_terraform_commands c3Env (some [("a", CredVal.s "b")])).1.destroy_status =
      some (if c3Env.destroyCmd.code = 0 then "success" else "failed") :=
  apply_failure_destroy_once c3Env (some [("a", CredVal.s "b")])
    rfl rfl rfl rfl rfl (by decide) (by decide) (by decide)

set_option maxHeartbeats 16000000 in
/-- C4: for each of init, plan and apply, a non-zero exit whose stderr carries
a lock indicator triggers exactly one `-lock=false` retry of that phase; a
phase reached without that condition is never retried; and when the retry also
exits non-zero the job terminates in `"error"` with that phase recorded —
there is never a second retry for the same phase. -/
theorem lock_retry_once_per_phase :
    ∀ (env : TFEnv) (creds : Option Creds),
      env.excFlag = false →
      env.terraformPathExists = true →
      env.mainTfExists = true →
      env.originalTfvarsExists = true →
      env.taskTfvarsExists = true →
      ((run_terraform_commands env creds).2.count (Cmd.init false) = 1) ∧
      ((run_terraform_commands env creds).2.count (Cmd.init true) =
        if env.init1.code ≠ 0 ∧ hasLockIndicator env.init1.stderr then 1 else 0) ∧
      (env.init1.code ≠ 0 → hasLockIndicator env.init1.stderr → env.init2.code ≠ 0 →
        (run_terraform_commands env creds).1.status = "error" ∧
        (run_terraform_commands env creds).1.phase = some "init") ∧
      ((run_terraform_commands env creds).2.count (Cmd.plan false) =
        if (retryPhase env.init1 env.init2).1.code = 0 then 1 else 0) ∧
      ((run_terraform_commands env creds).2.count (Cmd.plan true) =
        if (retryPhase env.init1 env.init2).1.code = 0 ∧
           env.plan1.code ≠ 0 ∧ hasLockIndicator env.plan1.stderr then 1 else 0) ∧
      ((retryPhase env.init1 env.init2).1.code = 0 →
        env.plan1.code ≠ 0 → hasLockIndicator env.plan1.stderr → env.plan2.code ≠ 0 →
        (run_terraform_commands env creds).1.status = "error" ∧
        (run_terraform_commands env creds).1.phase = some "plan") ∧
      ((run_terraform_commands env creds).2.count (Cmd.apply false) =
        if (retryPhase env.init1 env.init2).1.code = 0 ∧
           (retryPhase env.plan1 env.plan2).1.code = 0 then 1 else 0) ∧
      ((run_terraform_commands env creds).2.count (Cmd.apply true) =
        if (retryPhase env.init1 env.init2).1.code = 0 ∧
           (retryPhase env.plan1 env.plan2).1.code = 0 ∧
           env.apply1.code ≠ 0 ∧ hasLockIndicator env.apply1.stderr then 1 else 0) ∧
      ((retryPhase env.init1 env.init2).1.code = 0 →
        (retryPhase env.plan1 env.plan2).1.code = 0 →
        env.apply1.code ≠ 0 → hasLockIndicator env.apply1.stderr → env.apply2.code ≠ 0 →
        (run_terraform_commands env creds).1.status = "error" ∧
        (run_terraform_commands env creds).1.phase = some "apply") := by
  intro env creds h0 h1 h2 h3 h4
  have lci : ∀ b, (lockCleanupTrace env).count (Cmd.init b) = 0 := fun b =>
    lockCleanupTrace_count_zero env _ (by simp) (by simp)
  have lcp : ∀ b, (lockCleanupTrace env).count (Cmd.plan b) = 0 := fun b =>
    lockCleanupTrace_count_zero env _ (by simp) (by simp)
  have lca : ∀ b, (lockCleanupTrace env).count (Cmd.apply b) = 0 := fun b =>
    lockCleanupTrace_count_zero env _ (by simp) (by simp)
  by_cases li : hasLockIndicator env.init1.stderr = true <;>
  by_cases lp : hasLockIndicator env.plan1.stderr = true <;>
  by_cases la : hasLockIndicator env.apply1.stderr = true <;>
  by_cases di1 : env.init1.code = 0 <;>
  by_cases di2 : env.init2.code = 0 <;>
  by_cases dp1 : env.plan1.code = 0 <;>
  by_cases dp2 : env.plan2.code = 0 <;>
  by_cases da1 : env.apply1.code = 0 <;>
  by_cases da2 : env.apply2.code = 0 <;>
  simp [run_terraform_commands, retryPhase, h0, h1, h2, h3, h4, li, lp, la,
    di1, di2, dp1, dp2, da1, da2, List.count_append, List.count_cons, lci, lcp, lca]

/-- Environment for the C4 witness: init fails with a lock conflict and the
`-lock=false` retry succeeds; plan and apply run cleanly. -/
def c4Env : TFEnv :=
  { init1 := { code := 1, stderr := "Error acquiring the state lock" } }

/-- Witness for C4: the lock-conflicted init runs once normally and exactly
once with locking disabled; plan is reached and never retried. -/
theorem lock_retry_once_per_phase_witness :
    (run_terraform_commands c4Env none).2.count (Cmd.init false) = 1 ∧
    (run_terraform_commands c4Env none).2.count (Cmd.init true) = 1 ∧
    (run_terraform_commands c4Env none).2.count (Cmd.plan true) = 0 := by
  have h := lock_retry_once_per_phase c4Env none rfl rfl rfl rfl rfl
  refine ⟨h.1, ?_, ?_⟩
  · rw [h.2.1]
    decide
  · rw [h.2.2.2.2.1]
    decide
